import Mathlib

/-!
Verification of the `sun_angles` solar-geometry library.

The library computes solar position geometry (day angle, solar declination,
sunrise hour angle, solar zenith angle, solar azimuth, daylight duration,
sunrise time) elementwise over numeric arrays.  Every function is a pure
closed-form formula applied independently to each element, so the shallow
embedding models one element as a real number and each library function as a
function on `ℝ`.  IEEE NaN production (division by zero feeding `arcsin`,
out-of-domain `arcsin`) is modelled by an `Option ℝ` result where `none`
stands for a NaN element.
-/

namespace SunAngles

open Real

/-- Embeds `np.radians`: converts degrees to radians by multiplying with π/180. -/
noncomputable def radians (x : ℝ) : ℝ := x * (π / 180)

/-- Embeds `np.degrees`: converts radians to degrees by multiplying with 180/π. -/
noncomputable def degrees (x : ℝ) : ℝ := x * (180 / π)

/-- Embeds `day_angle_rad_from_DOY` (src/sun_angles/day_angle.py):
`(2 * np.pi * (DOY - 1)) / 365`. -/
noncomputable def day_angle_rad_from_DOY (DOY : ℝ) : ℝ :=
  (2 * π * (DOY - 1)) / 365

/-- Embeds `solar_dec_deg_from_day_angle_rad` (src/sun_angles/declination.py):
the second-order Fourier fit of solar declination, converted to degrees by
`* (180 / np.pi)`. -/
noncomputable def solar_dec_deg_from_day_angle_rad (day_angle_rad : ℝ) : ℝ :=
  (0.006918 - 0.399912 * cos day_angle_rad + 0.070257 * sin day_angle_rad
    - 0.006758 * cos (2 * day_angle_rad) + 0.000907 * sin (2 * day_angle_rad)
    - 0.002697 * cos (3 * day_angle_rad) + 0.00148 * sin (3 * day_angle_rad)) * (180 / π)

/-- Embeds the local variable `sunrise_cos` of `SHA_deg_from_DOY_lat`
(src/sun_angles/SHA.py): day angle, declination, degree→radian conversions and
`sunrise_cos = -np.tan(latitude_rad) * np.tan(solar_dec_rad)`. -/
noncomputable def sunrise_cos_from_DOY_lat (DOY latitude : ℝ) : ℝ :=
  let day_angle_rad := day_angle_rad_from_DOY DOY
  let solar_dec_deg := solar_dec_deg_from_day_angle_rad day_angle_rad
  let latitude_rad := radians latitude
  let solar_dec_rad := radians solar_dec_deg
  (-tan latitude_rad) * tan solar_dec_rad

/-- Embeds `SHA_deg_from_DOY_lat` (src/sun_angles/SHA.py): arccos of
`sunrise_cos`, conversion to degrees, then the two polar `np.where`
corrections in source order (`sunrise_cos >= 1 → 0` applied first,
`sunrise_cos <= -1 → 180` applied second, each replacing the previous value).
Over ℝ the out-of-range `arccos` (NaN in numpy) is irrelevant because the
corrections overwrite exactly those positions. -/
noncomputable def SHA_deg_from_DOY_lat (DOY latitude : ℝ) : ℝ :=
  let sunrise_cos := sunrise_cos_from_DOY_lat DOY latitude
  let sunrise_rad := arccos sunrise_cos
  let sunrise_deg := degrees sunrise_rad
  let corrected_night := if 1 ≤ sunrise_cos then 0 else sunrise_deg
  if sunrise_cos ≤ -1 then 180 else corrected_night

/-- Embeds `daylight_from_SHA` (src/sun_angles/daylight.py):
`(2.0 / 15.0) * SHA_deg`. -/
noncomputable def daylight_from_SHA (SHA_deg : ℝ) : ℝ := (2.0 / 15.0) * SHA_deg

/-- Embeds `sunrise_from_SHA` (src/sun_angles/sunrise.py):
`12.0 - (SHA_deg / 15.0)`. -/
noncomputable def sunrise_from_SHA (SHA_deg : ℝ) : ℝ := 12.0 - (SHA_deg / 15.0)

/-- Embeds the argument passed to `np.arccos` inside `SZA_deg_from_lat_dec_hour`
(src/sun_angles/SZA.py): `sin(lat)·sin(dec) + cos(lat)·cos(dec)·cos(hour_angle)`
with the hour angle `hour * 15.0 - 180.0` in degrees. -/
noncomputable def SZA_arccos_arg (latitude solar_dec_deg hour : ℝ) : ℝ :=
  let latitude_rad := radians latitude
  let solar_dec_rad := radians solar_dec_deg
  let hour_angle_deg := hour * 15.0 - 180.0
  let hour_angle_rad := radians hour_angle_deg
  sin latitude_rad * sin solar_dec_rad +
    cos latitude_rad * cos solar_dec_rad * cos hour_angle_rad

/-- Embeds `SZA_deg_from_lat_dec_hour` (src/sun_angles/SZA.py):
`np.degrees(np.arccos(...))` applied to `SZA_arccos_arg`. -/
noncomputable def SZA_deg_from_lat_dec_hour (latitude solar_dec_deg hour : ℝ) : ℝ :=
  degrees (arccos (SZA_arccos_arg latitude solar_dec_deg hour))

/-- Embeds `calculate_SZA_from_DOY_and_hour` (src/sun_angles/SZA.py): day angle,
declination, then the low-level SZA.  The `lon` parameter is accepted and unused,
as in the source. -/
noncomputable def calculate_SZA_from_DOY_and_hour (lat lon DOY hour : ℝ) : ℝ :=
  let day_angle_rad := day_angle_rad_from_DOY DOY
  let solar_dec_deg := solar_dec_deg_from_day_angle_rad day_angle_rad
  SZA_deg_from_lat_dec_hour lat solar_dec_deg hour

/-- Embeds `calculate_solar_azimuth` (src/sun_angles/azimuth.py):
`arcsin(-1.0 * sin(hour_angle) * cos(dec) / sin(SZA))` in degrees.  IEEE float
semantics of the source are modelled with `Option ℝ`: when `sin(SZA_rad) = 0`
the division yields Inf or NaN and the subsequent `np.arcsin` yields NaN
(`none` here); likewise `np.arcsin` of a ratio outside [-1, 1] yields NaN.
No exception is raised in the source (warnings are suppressed); accordingly the
embedding is a total function. -/
noncomputable def calculate_solar_azimuth (solar_dec_deg SZA_deg hour : ℝ) : Option ℝ :=
  let solar_dec_rad := radians solar_dec_deg
  let SZA_rad := radians SZA_deg
  let hour_angle_deg := hour * 15.0 - 180.0
  let hour_angle_rad := radians hour_angle_deg
  if sin SZA_rad = 0 then none
  else
    let ratio := -1.0 * sin hour_angle_rad * cos solar_dec_rad / sin SZA_rad
    if 1 < |ratio| then none
    else some (degrees (arcsin ratio))

/-- Modelled from the spec: the hour-of-day provider `hour_of_day` is called by
`calculate_SZA_from_datetime` (src/sun_angles/SZA.py, marked
`FIXME missing hour_of_day implementation`) but is not defined anywhere in the
repository, so in Python the call raises `NameError`.  The spec states it is
"currently unimplemented in the reference".  The failing call is modelled as an
`Except.error`. -/
def hour_of_day {Time : Type} (time_UTC : Time) (lon : ℝ) : Except String ℝ :=
  Except.error "NameError: name hour_of_day is not defined"

/-- Embeds `calculate_SZA_from_datetime` (src/sun_angles/SZA.py).  The external
solar-time provider `solar_day_of_year_for_longitude` is an injected dependency
(a function parameter); the body derives the day of year, then calls the
missing `hour_of_day`, then the DOY-and-hour wrapper.  Because the source can
raise, the embedding returns `Except String ℝ`. -/
noncomputable def calculate_SZA_from_datetime {Time : Type}
    (solar_day_of_year_for_longitude : Time → ℝ → ℝ)
    (time_UTC : Time) (lat lon : ℝ) : Except String ℝ := do
  let doy := solar_day_of_year_for_longitude time_UTC lon
  let hour ← hour_of_day time_UTC lon
  pure (calculate_SZA_from_DOY_and_hour lat lon doy hour)

/-- Refinement candidate written from the spec's words for the clamp-then-arccos
alternative (spec §4.3: "a naive clamp-then-arccos would also get right only if
the clamp target matches"): clamp `sunrise_cos` into [-1, 1], take `arccos`,
convert to degrees, with no conditional replacement afterwards. -/
noncomputable def SHA_deg_clamp_then_arccos (DOY latitude : ℝ) : ℝ :=
  degrees (arccos (max (-1) (min 1 (sunrise_cos_from_DOY_lat DOY latitude))))

/-- C1: for every day-of-year and latitude, `SHA_deg_from_DOY_lat` returns 0
wherever the pre-arccos cosine `sunrise_cos = -tan(latitude_rad)*tan(dec_rad)`
is ≥ 1 (polar night), 180 wherever it is ≤ -1 (polar day), and
`degrees(arccos(sunrise_cos))` at all other elements; the override is decided
by the cosine value itself (the conditions below mention only
`sunrise_cos_from_DOY_lat`, never the arccos output). -/
theorem SHA_polar_correction_by_cosine (DOY latitude : ℝ) :
    SHA_deg_from_DOY_lat DOY latitude =
      if 1 ≤ sunrise_cos_from_DOY_lat DOY latitude then 0
      else if sunrise_cos_from_DOY_lat DOY latitude ≤ -1 then 180
      else degrees (arccos (sunrise_cos_from_DOY_lat DOY latitude)) := by
  simp only [SHA_deg_from_DOY_lat]
  split_ifs with h1 h2 h3 <;> first | rfl | linarith

/-- C2: clamping `sunrise_cos` into [-1, 1] before the arccos and skipping the
conditional replacement yields exactly the same output as the
compute-arccos-then-overwrite procedure of `SHA_deg_from_DOY_lat`, because the
clamp targets -1 and 1 map under `degrees ∘ arccos` to the same terminal
outputs 180 and 0. -/
theorem SHA_clamp_then_arccos_equiv (DOY latitude : ℝ) :
    SHA_deg_clamp_then_arccos DOY latitude = SHA_deg_from_DOY_lat DOY latitude := by
  simp only [SHA_deg_clamp_then_arccos, SHA_deg_from_DOY_lat]
  rcases le_or_lt (sunrise_cos_from_DOY_lat DOY latitude) (-1) with h1 | h1
  · rw [min_eq_right (by linarith), max_eq_left h1, if_pos h1, arccos_neg_one]
    unfold degrees
    field_simp
  · rcases le_or_lt 1 (sunrise_cos_from_DOY_lat DOY latitude) with h2 | h2
    · rw [min_eq_left h2, max_eq_right (by norm_num), if_neg (by linarith), if_pos h2,
        arccos_one]
      unfold degrees
      ring
    · rw [min_eq_right (by linarith), max_eq_right (by linarith), if_neg (by linarith),
        if_neg (by linarith)]

/-- C4: for every sunrise hour angle in [0, 180], daylight hours plus twice the
sunrise hour equal 24 exactly: `(2/15)*SHA + 2*(12 - SHA/15) = 24`. -/
theorem daylight_plus_twice_sunrise_eq_24 (SHA_deg : ℝ)
    (h1 : 0 ≤ SHA_deg) (h2 : SHA_deg ≤ 180) :
    daylight_from_SHA SHA_deg + 2 * sunrise_from_SHA SHA_deg = 24 := by
  unfold daylight_from_SHA sunrise_from_SHA
  ring

/-- Witness for C4 at the concrete sunrise hour angle 90. -/
theorem daylight_plus_twice_sunrise_eq_24_witness :
    (0:ℝ) ≤ 90 ∧ (90:ℝ) ≤ 180 ∧
      daylight_from_SHA 90 + 2 * sunrise_from_SHA 90 = 24 :=
  ⟨by norm_num, by norm_num,
    daylight_plus_twice_sunrise_eq_24 90 (by norm_num) (by norm_num)⟩

/-- C6: for every solar declination and hour, `calculate_solar_azimuth` at a
solar zenith angle input of exactly 0 (and likewise exactly 180) produces the
NaN element (`none`) coming from the division by `sin(SZA_rad) = 0`; being a
total function, the embedding returns this value rather than raising. -/
theorem azimuth_nan_at_zero_or_180_SZA (solar_dec_deg hour : ℝ) :
    calculate_solar_azimuth solar_dec_deg 0 hour = none ∧
      calculate_solar_azimuth solar_dec_deg 180 hour = none := by
  constructor
  · simp [calculate_solar_azimuth, radians]
  · simp [calculate_solar_azimuth, radians,
      show (180:ℝ) * (π / 180) = π by ring, Real.sin_pi]

/-- C7: exact boundary values of the solar zenith angle over real arithmetic:
at the equator on the equinox, `SZA_deg_from_lat_dec_hour 0 0 12 = 0` (noon,
hour angle `12*15 - 180 = 0`) and `SZA_deg_from_lat_dec_hour 0 0 6 = 90`
(sunrise). -/
theorem SZA_boundary_values :
    SZA_deg_from_lat_dec_hour 0 0 12 = 0 ∧ SZA_deg_from_lat_dec_hour 0 0 6 = 90 := by
  constructor
  · simp only [SZA_deg_from_lat_dec_hour, SZA_arccos_arg, radians, degrees]
    norm_num [Real.arccos_one]
  · simp only [SZA_deg_from_lat_dec_hour, SZA_arccos_arg, radians, degrees]
    rw [show ((6:ℝ) * 15.0 - 180.0) * (π / 180) = -(π/2) by ring, Real.cos_neg,
      Real.cos_pi_div_two]
    norm_num [Real.arccos_zero]
    field_simp
    ring

/-- C8: for every UTC time, latitude and longitude (and any injected solar-time
provider), `calculate_SZA_from_datetime` fails before producing a result,
because the hour-of-day derivation it calls is not defined anywhere in the
core; the entry point always returns the error and never a zenith angle. -/
theorem SZA_from_datetime_always_fails {Time : Type}
    (provider : Time → ℝ → ℝ) (time_UTC : Time) (lat lon : ℝ) :
    calculate_SZA_from_datetime provider time_UTC lat lon =
      Except.error "NameError: name hour_of_day is not defined" := rfl

/-- C10: the solar zenith angle is symmetric about solar noon: for every
latitude, declination and offset t,
`SZA_deg_from_lat_dec_hour lat dec (12 + t) = SZA_deg_from_lat_dec_hour lat dec (12 - t)`,
because the hour angle `hour*15 - 180` enters only through its cosine. -/
theorem SZA_symmetric_about_solar_noon (latitude solar_dec_deg t : ℝ) :
    SZA_deg_from_lat_dec_hour latitude solar_dec_deg (12 + t) =
      SZA_deg_from_lat_dec_hour latitude solar_dec_deg (12 - t) := by
  simp only [SZA_deg_from_lat_dec_hour, SZA_arccos_arg, radians]
  rw [show ((12 + t) * 15.0 - 180.0) * (π / 180)
        = -(((12 - t) * 15.0 - 180.0) * (π / 180)) by ring, Real.cos_neg]

/-- Helper for C3: the spherical-law-of-cosines expression is bounded above
by 1 for all angles. -/
theorem cos_combination_le_one (a b h : ℝ) :
    sin a * sin b + cos a * cos b * cos h ≤ 1 := by
  have ha := sin_sq_add_cos_sq a
  have hb := sin_sq_add_cos_sq b
  have hc1 := Real.cos_le_one h
  have hc2 := Real.neg_one_le_cos h
  nlinarith [mul_nonneg (by linarith : (0:ℝ) ≤ 1 + Real.cos h)
      (by positivity : (0:ℝ) ≤ (Real.sin a - Real.sin b)^2 + (Real.cos a - Real.cos b)^2),
    mul_nonneg (by linarith : (0:ℝ) ≤ 1 - Real.cos h)
      (by positivity : (0:ℝ) ≤ (Real.sin a - Real.sin b)^2 + (Real.cos a + Real.cos b)^2)]

/-- Helper for C3: the spherical-law-of-cosines expression is bounded below
by -1 for all angles. -/
theorem neg_one_le_cos_combination (a b h : ℝ) :
    -1 ≤ sin a * sin b + cos a * cos b * cos h := by
  have ha := sin_sq_add_cos_sq a
  have hb := sin_sq_add_cos_sq b
  have hc1 := Real.cos_le_one h
  have hc2 := Real.neg_one_le_cos h
  nlinarith [mul_nonneg (by linarith : (0:ℝ) ≤ 1 + Real.cos h)
      (by positivity : (0:ℝ) ≤ (Real.sin a + Real.sin b)^2 + (Real.cos a + Real.cos b)^2),
    mul_nonneg (by linarith : (0:ℝ) ≤ 1 - Real.cos h)
      (by positivity : (0:ℝ) ≤ (Real.sin a + Real.sin b)^2 + (Real.cos a - Real.cos b)^2)]

/-- C3: for every latitude, declination and hour, the argument passed to arccos
inside `SZA_deg_from_lat_dec_hour` lies in [-1, 1] (so the arccos domain-error
branch is unreachable), and the returned zenith angle lies in [0, 180]
degrees. -/
theorem SZA_arccos_arg_in_domain (latitude solar_dec_deg hour : ℝ) :
    -1 ≤ SZA_arccos_arg latitude solar_dec_deg hour ∧
      SZA_arccos_arg latitude solar_dec_deg hour ≤ 1 ∧
      0 ≤ SZA_deg_from_lat_dec_hour latitude solar_dec_deg hour ∧
      SZA_deg_from_lat_dec_hour latitude solar_dec_deg hour ≤ 180 := by
  have harg : SZA_arccos_arg latitude solar_dec_deg hour =
      sin (radians latitude) * sin (radians solar_dec_deg) +
        cos (radians latitude) * cos (radians solar_dec_deg) *
          cos (radians (hour * 15.0 - 180.0)) := rfl
  refine ⟨?_, ?_, ?_, ?_⟩
  · rw [harg]
    exact neg_one_le_cos_combination _ _ _
  · rw [harg]
    exact cos_combination_le_one _ _ _
  · exact mul_nonneg (Real.arccos_nonneg _) (by positivity)
  · have h1 := Real.arccos_le_pi (SZA_arccos_arg latitude solar_dec_deg hour)
    have h2 : arccos (SZA_arccos_arg latitude solar_dec_deg hour) * (180 / π)
        ≤ π * (180 / π) := by
      apply mul_le_mul_of_nonneg_right h1 (by positivity)
    have h3 : π * (180 / π) = 180 := by
      field_simp
    unfold SZA_deg_from_lat_dec_hour degrees
    linarith

/-- C9: for every day-of-year and latitude with |latitude| < 90, negating the
latitude negates `sunrise_cos`, so
`SHA_deg_from_DOY_lat DOY (-latitude) + SHA_deg_from_DOY_lat DOY latitude = 180`:
the sunrise hour angle is reflected about 90 degrees, and the polar-night (0)
and polar-day (180) branches swap. -/
theorem SHA_antisymmetric_in_latitude (DOY latitude : ℝ) (h : |latitude| < 90) :
    SHA_deg_from_DOY_lat DOY (-latitude) + SHA_deg_from_DOY_lat DOY latitude = 180 := by
  have hker : sunrise_cos_from_DOY_lat DOY (-latitude)
      = -sunrise_cos_from_DOY_lat DOY latitude := by
    simp only [sunrise_cos_from_DOY_lat, radians]
    rw [show -latitude * (π / 180) = -(latitude * (π / 180)) by ring, Real.tan_neg]
    ring
  simp only [SHA_deg_from_DOY_lat]
  rw [hker]
  split_ifs <;> try linarith
  rw [Real.arccos_neg]
  unfold degrees
  field_simp
  ring

/-- Helper for C5: on the circle the declination Fourier series reduces to the
polynomial `A(cos) + sin * B(cos)` with
`A(c) = 0.013676 - 0.391821 c - 0.013516 c² - 0.010788 c³` and
`B(c) = 0.068777 + 0.001814 c + 0.00592 c²` (Chebyshev expansion of the
double- and triple-angle terms, then `sin³ = sin·(1 - cos²)`). -/
theorem decl_fourier_eq (t : ℝ) :
    0.006918 - 0.399912 * cos t + 0.070257 * sin t
      - 0.006758 * cos (2 * t) + 0.000907 * sin (2 * t)
      - 0.002697 * cos (3 * t) + 0.00148 * sin (3 * t)
    = (0.013676 - 0.391821 * cos t - 0.013516 * cos t ^ 2 - 0.010788 * cos t ^ 3)
      + sin t * (0.068777 + 0.001814 * cos t + 0.00592 * cos t ^ 2) := by
  rw [Real.cos_two_mul, Real.sin_two_mul, Real.cos_three_mul, Real.sin_three_mul]
  have hsc := sin_sq_add_cos_sq t
  linear_combination (-0.00592 * Real.sin t) * hsc

/-- Helper for C5: the polynomial part `A` stays strictly below the radian
bound 0.41015 on cosine range [-1, 1]. -/
theorem decl_A_lt_bound (c : ℝ) (h1 : -1 ≤ c) (h2 : c ≤ 1) :
    0.013676 - 0.391821 * c - 0.013516 * c ^ 2 - 0.010788 * c ^ 3 < 0.41015 := by
  nlinarith [mul_nonneg (by linarith : (0:ℝ) ≤ 1 + c) (sq_nonneg (c + 0.13)),
    mul_nonneg (by linarith : (0:ℝ) ≤ 1 + c) (by linarith : (0:ℝ) ≤ 1 - c),
    sq_nonneg (c + 1), sq_nonneg c]

/-- Helper for C5: the polynomial part `A` stays strictly above -0.41015 on
cosine range [-1, 1]. -/
theorem decl_A_gt_bound (c : ℝ) (h1 : -1 ≤ c) (h2 : c ≤ 1) :
    -0.41015 < 0.013676 - 0.391821 * c - 0.013516 * c ^ 2 - 0.010788 * c ^ 3 := by
  nlinarith [mul_nonneg (by linarith : (0:ℝ) ≤ 1 - c) (sq_nonneg (c + 0.13)),
    mul_nonneg (by linarith : (0:ℝ) ≤ 1 + c) (by linarith : (0:ℝ) ≤ 1 - c),
    sq_nonneg (c - 1), sq_nonneg c]

/-- Helper for C5: quotient polynomial of the upper-bound certificate is at
least 0.15 on [-1, 1]. -/
theorem decl_qG_ge (c : ℝ) (h1 : -1 ≤ c) (h2 : c ≤ 1) :
    0.15 ≤ 0.156928634632529390296563712 + 0.001139515932684073385984 * c
      + 0.00924328823590935552 * c ^ 2 + 0.0000146053955072 * c ^ 3
      + 0.000151427344 * c ^ 4 := by
  nlinarith [sq_nonneg c, sq_nonneg (c ^ 2),
    mul_nonneg (by linarith : (0:ℝ) ≤ 1 + c)
      (by nlinarith [sq_nonneg (2 * c - 1)] : (0:ℝ) ≤ 1 - c + c ^ 2)]

/-- Helper for C5: quotient polynomial of the lower-bound certificate is at
least 0.15 on [-1, 1]. -/
theorem decl_qH_ge (c : ℝ) (h1 : -1 ≤ c) (h2 : c ≤ 1) :
    0.15 ≤ 0.178855203784814900271316992 + 0.021806602337732962435072 * c
      + 0.01048252366255889408 * c ^ 2 + 0.0006125616914944 * c ^ 3
      + 0.000151427344 * c ^ 4 := by
  nlinarith [sq_nonneg c, sq_nonneg (c ^ 2),
    mul_nonneg (by linarith : (0:ℝ) ≤ 1 + c)
      (by nlinarith [sq_nonneg (2 * c - 1)] : (0:ℝ) ≤ 1 - c + c ^ 2)]

/-- Helper for C5: squared upper-bound inequality
`(0.41015 - A(c))² ≥ (1 - c²)·B(c)²` on [-1, 1]. -/
theorem decl_G_nonneg (c : ℝ) (h1 : -1 ≤ c) (h2 : c ≤ 1) :
    0 ≤ (0.41015 - (0.013676 - 0.391821 * c - 0.013516 * c ^ 2 - 0.010788 * c ^ 3)) ^ 2
        - (1 - c ^ 2) * (0.068777 + 0.001814 * c + 0.00592 * c ^ 2) ^ 2 := by
  nlinarith [mul_nonneg
      (by nlinarith [decl_qG_ge c h1 h2] :
        (0:ℝ) ≤ 0.156928634632529390296563712 + 0.001139515932684073385984 * c
          + 0.00924328823590935552 * c ^ 2 + 0.0000146053955072 * c ^ 3
          + 0.000151427344 * c ^ 4 - 0.15)
      (sq_nonneg (c + 0.9856)),
    sq_nonneg (c + 0.9856)]

/-- Helper for C5: squared lower-bound inequality
`(0.41015 + A(c))² ≥ (1 - c²)·B(c)²` on [-1, 1]. -/
theorem decl_H_nonneg (c : ℝ) (h1 : -1 ≤ c) (h2 : c ≤ 1) :
    0 ≤ (0.41015 + (0.013676 - 0.391821 * c - 0.013516 * c ^ 2 - 0.010788 * c ^ 3)) ^ 2
        - (1 - c ^ 2) * (0.068777 + 0.001814 * c + 0.00592 * c ^ 2) ^ 2 := by
  nlinarith [mul_nonneg
      (by nlinarith [decl_qH_ge c h1 h2] :
        (0:ℝ) ≤ 0.178855203784814900271316992 + 0.021806602337732962435072 * c
          + 0.01048252366255889408 * c ^ 2 + 0.0006125616914944 * c ^ 3
          + 0.000151427344 * c ^ 4 - 0.15)
      (sq_nonneg (c - 0.9888)),
    sq_nonneg (c - 0.9888)]

/-- Helper for C5: upper bound of the reduced declination polynomial on the
unit circle. -/
theorem decl_poly_upper (s c : ℝ) (hsc : s ^ 2 + c ^ 2 = 1) :
    (0.013676 - 0.391821 * c - 0.013516 * c ^ 2 - 0.010788 * c ^ 3)
      + s * (0.068777 + 0.001814 * c + 0.00592 * c ^ 2) ≤ 0.41015 := by
  have hc1 : -1 ≤ c := by nlinarith [sq_nonneg s]
  have hc2 : c ≤ 1 := by nlinarith [sq_nonneg s]
  have hA := decl_A_lt_bound c hc1 hc2
  have hG := decl_G_nonneg c hc1 hc2
  nlinarith [hG, hA, sq_nonneg (0.068777 + 0.001814 * c + 0.00592 * c ^ 2)]

/-- Helper for C5: lower bound of the reduced declination polynomial on the
unit circle. -/
theorem decl_poly_lower (s c : ℝ) (hsc : s ^ 2 + c ^ 2 = 1) :
    -0.41015 ≤ (0.013676 - 0.391821 * c - 0.013516 * c ^ 2 - 0.010788 * c ^ 3)
      + s * (0.068777 + 0.001814 * c + 0.00592 * c ^ 2) := by
  have hc1 : -1 ≤ c := by nlinarith [sq_nonneg s]
  have hc2 : c ≤ 1 := by nlinarith [sq_nonneg s]
  have hA := decl_A_gt_bound c hc1 hc2
  have hH := decl_H_nonneg c hc1 hc2
  nlinarith [hH, hA, sq_nonneg (0.068777 + 0.001814 * c + 0.00592 * c ^ 2)]

/-- Helper for C5: the declination Fourier series, in radians, is bounded by
0.41015 in absolute value for every day angle. -/
theorem decl_fourier_abs_le (t : ℝ) :
    |0.006918 - 0.399912 * cos t + 0.070257 * sin t
      - 0.006758 * cos (2 * t) + 0.000907 * sin (2 * t)
      - 0.002697 * cos (3 * t) + 0.00148 * sin (3 * t)| ≤ 0.41015 := by
  rw [decl_fourier_eq t]
  have hsc := sin_sq_add_cos_sq t
  exact abs_le.mpr ⟨decl_poly_lower (sin t) (cos t) hsc,
    decl_poly_upper (sin t) (cos t) hsc⟩

/-- Helper for C5: scaling a radian value bounded by 0.41015 to degrees keeps
it within 23.5, since `0.41015 · 180 ≤ 23.5 · π`. -/
theorem decl_deg_scale_bound (x : ℝ) (hx : |x| ≤ 0.41015) : |x * (180 / π)| ≤ 23.5 := by
  rw [abs_mul, abs_of_pos (show (0:ℝ) < 180 / π by positivity)]
  have hπ := Real.pi_gt_d6
  have h1 : |x| * (180 / π) ≤ 0.41015 * (180 / π) :=
    mul_le_mul_of_nonneg_right hx (by positivity)
  have h2 : 0.41015 * (180 / π) ≤ 23.5 := by
    rw [← mul_div_assoc, div_le_iff₀ Real.pi_pos]
    nlinarith
  linarith

/-- Helper for C5: the declination output of
`solar_dec_deg_from_day_angle_rad` is within ±23.5 degrees for every day
angle. -/
theorem solar_dec_deg_abs_le (day_angle_rad : ℝ) :
    |solar_dec_deg_from_day_angle_rad day_angle_rad| ≤ 23.5 := by
  unfold solar_dec_deg_from_day_angle_rad
  exact decl_deg_scale_bound _ (decl_fourier_abs_le day_angle_rad)

/-- C5: for every day-of-year in [1, 365], the composed declination
`solar_dec_deg_from_day_angle_rad (day_angle_rad_from_DOY DOY)` lies within
[-23.5, 23.5] degrees. -/
theorem declination_within_tropics (DOY : ℝ) (h1 : 1 ≤ DOY) (h2 : DOY ≤ 365) :
    -23.5 ≤ solar_dec_deg_from_day_angle_rad (day_angle_rad_from_DOY DOY) ∧
      solar_dec_deg_from_day_angle_rad (day_angle_rad_from_DOY DOY) ≤ 23.5 :=
  abs_le.mp (solar_dec_deg_abs_le (day_angle_rad_from_DOY DOY))

/-- Witness for C5 at day-of-year 100. -/
theorem declination_within_tropics_witness :
    (1:ℝ) ≤ 100 ∧ (100:ℝ) ≤ 365 ∧
      (-23.5 ≤ solar_dec_deg_from_day_angle_rad (day_angle_rad_from_DOY 100) ∧
        solar_dec_deg_from_day_angle_rad (day_angle_rad_from_DOY 100) ≤ 23.5) :=
  ⟨by norm_num, by norm_num, declination_within_tropics 100 (by norm_num) (by norm_num)⟩

/-- Witness for C9 at day-of-year 1 and latitude 45. -/
theorem SHA_antisymmetric_in_latitude_witness :
    |(45:ℝ)| < 90 ∧ SHA_deg_from_DOY_lat 1 (-45) + SHA_deg_from_DOY_lat 1 45 = 180 :=
  ⟨by norm_num, SHA_antisymmetric_in_latitude 1 45 (by norm_num)⟩

end SunAngles
